import Mathlib

/-!
# Verification of OpenTTD's Unix crash log handler (`src/os/unix/crashlog_unix.cpp`)

Shallow embedding of the crash-handling subsystem:

* the process-wide signal disposition table (`SigState`) and the operations
  that mutate it: the disarm loop at the top of `HandleCrash` and the
  registration loop in `CrashLog::InitialiseCrashLog`;
* the control flow of `HandleCrash` as an event trace (`Event`), with the
  two external skip-predicates (`GamelogTestEmergency`,
  `SaveloadCrashWithMissingNewGRFs`) abstracted as booleans supplied by the
  environment;
* the three report-producing operations of `CrashLogUnix`
  (`LogOSVersion`, `LogError`, `LogStacktrace` in its platform variants),
  modelled at line granularity: each function returns the list of text
  lines it appends to the report buffer; the buffer content is the
  concatenation of those lines, each followed by a newline, and the empty
  string stands for a blank line.  The bounded formatter `seprintf` is an
  external primitive (it never writes past the buffer end); no claim under
  verification concerns truncation, so emission is modelled as plain
  appending of the formatted text.

External C library calls (`uname`, `strsignal`, `backtrace`,
`backtrace_symbols`, `getcontext`, `walkcontext`, `dladdr`, `signal`) are
modelled as abstract inputs with their documented interface semantics.
-/

/- ## Signal dispositions -/

/-- The disposition a signal currently maps to: the platform default
(`SIG_DFL`), the crash handler `HandleCrash`, or anything else
(another handler, `SIG_IGN`, ...). -/
inductive Disposition where
  | sigdfl : Disposition
  | crashHandler : Disposition
  | other : Nat → Disposition
deriving DecidableEq

/-- The process-wide signal disposition table. -/
def SigState : Type := Nat → Disposition

/-- Signal numbers (Linux numbering; the claims depend only on their
identity, not on the numeric values). -/
def SIGSEGV : Nat := 11
/-- `SIGABRT` signal number. -/
def SIGABRT : Nat := 6
/-- `SIGFPE` signal number. -/
def SIGFPE : Nat := 8
/-- `SIGBUS` signal number. -/
def SIGBUS : Nat := 7
/-- `SIGILL` signal number. -/
def SIGILL : Nat := 4

/-- `static const int _signals_to_handle[] = { SIGSEGV, SIGABRT, SIGFPE, SIGBUS, SIGILL };` -/
def signals_to_handle : List Nat := [SIGSEGV, SIGABRT, SIGFPE, SIGBUS, SIGILL]

/-- One call of the C `signal(sig, d)` primitive: update the disposition
table at `sig`. -/
def setSignal (s : SigState) (sig : Nat) (d : Disposition) : SigState :=
  fun n => if n = sig then d else s n

/-- The disarm loop at the top of `HandleCrash`:
`for (i in _signals_to_handle) signal(*i, SIG_DFL);` -/
def disarmSignals (s : SigState) : SigState :=
  signals_to_handle.foldl (fun st i => setSignal st i Disposition.sigdfl) s

/-- `CrashLog::InitialiseCrashLog`:
`for (i in _signals_to_handle) signal(*i, HandleCrash);` -/
def InitialiseCrashLog (s : SigState) : SigState :=
  signals_to_handle.foldl (fun st i => setSignal st i Disposition.crashHandler) s

/-- Delivery of signal `sig` re-invokes the crash handler exactly when the
current disposition table maps `sig` to `HandleCrash`. -/
def deliveryInvokesHandler (s : SigState) (sig : Nat) : Prop :=
  s sig = Disposition.crashHandler

instance (s : SigState) (sig : Nat) : Decidable (deliveryInvokesHandler s sig) := by
  unfold deliveryInvokesHandler; infer_instance

/- ## The crash handler as an event trace -/

/-- Observable actions of `HandleCrash`, in program order. -/
inductive Event where
  | setSig : Nat → Disposition → Event
  | queryEmergency : Bool → Event
  | queryMissingNewGRFs : Bool → Event
  | printLine : String → Event
  | collectOSVersion : Event
  | collectError : Nat → Event
  | collectStacktrace : Event
  | afterCrashLogCleanup : Event
  | callAbort : Event
deriving DecidableEq

/-- The environment of a crash episode: the answers of the two external
skip-predicates `GamelogTestEmergency()` and
`SaveloadCrashWithMissingNewGRFs()`. -/
structure Env where
  gamelogTestEmergency : Bool
  saveloadCrashWithMissingNewGRFs : Bool
deriving DecidableEq

/-- Modelled from the spec: `CrashLog::MakeCrashLog` lives in
`crashlog.cpp`, which is not part of the excerpt; per the spec it invokes
the three report-producing operations of the collector in the fixed order
{OS version, fault reason, stack trace}. -/
def MakeCrashLogEvents (signum : Nat) : List Event :=
  [Event.collectOSVersion, Event.collectError signum, Event.collectStacktrace]

/-- The event trace of `static void CDECL HandleCrash(int signum)`:
disarm all watched signals, query `GamelogTestEmergency()`, on true print
two fixed lines and `abort()`; otherwise query
`SaveloadCrashWithMissingNewGRFs()`, on true print three fixed lines and
`abort()`; otherwise build the crash log (collector operations, then
`CrashLog::AfterCrashLogCleanup()`) and `abort()`. -/
def HandleCrash (env : Env) (signum : Nat) : List Event :=
  (signals_to_handle.map (fun i => Event.setSig i Disposition.sigdfl)) ++
  (Event.queryEmergency env.gamelogTestEmergency ::
    (if env.gamelogTestEmergency then
      [Event.printLine "A serious fault condition occurred in the game. The game will shut down.",
       Event.printLine "As you loaded an emergency savegame no crash information will be generated.",
       Event.callAbort]
     else
      Event.queryMissingNewGRFs env.saveloadCrashWithMissingNewGRFs ::
        (if env.saveloadCrashWithMissingNewGRFs then
          [Event.printLine "A serious fault condition occurred in the game. The game will shut down.",
           Event.printLine "As you loaded an savegame for which you do not have the required NewGRFs",
           Event.printLine "no crash information will be generated.",
           Event.callAbort]
         else
          MakeCrashLogEvents signum ++ [Event.afterCrashLogCleanup, Event.callAbort])))

/-- Effect of one event on the signal disposition table: only the
`signal()` calls mutate it. -/
def applyEvent (s : SigState) : Event → SigState
  | Event.setSig sig d => setSignal s sig d
  | _ => s

/-- Effect of a trace on the signal disposition table. -/
def applyEvents (s : SigState) (es : List Event) : SigState :=
  es.foldl applyEvent s

/-- Does an event invoke a `DiagnosticCollector` (i.e. `CrashLogUnix`)
report-producing operation? -/
def isCollectorEvent : Event → Bool
  | Event.collectOSVersion => true
  | Event.collectError _ => true
  | Event.collectStacktrace => true
  | _ => false

/-- The console lines printed by a trace, in order. -/
def printedLines (es : List Event) : List String :=
  es.filterMap (fun e => match e with
    | Event.printLine l => some l
    | _ => none)

/- ## Report text -/

/-- Result fields of a successful `uname()` call. -/
structure Utsname where
  sysname : String
  release : String
  version : String
  machine : String
deriving DecidableEq

/-- `%02i`: decimal, zero-padded to at least two digits. -/
def fmt02i (n : Nat) : String :=
  if n < 10 then "0" ++ toString n else toString n

/-- `%x`: lowercase hexadecimal. -/
def fmtHex (n : Nat) : String :=
  (Nat.toDigits 16 n).asString

/-- `CrashLogUnix::LogOSVersion`, at line granularity.  `una` is the
outcome of the external `uname()` call (`none` = failure), `errnoStr` the
`strerror(errno)` text of a failure.  On failure emits the single line
`"Could not get OS version: %s"`; on success the header plus the four
labeled fields, each indented by one space. -/
def LogOSVersion (una : Option Utsname) (errnoStr : String) : List String :=
  match una with
  | none => ["Could not get OS version: " ++ errnoStr]
  | some name =>
      ["Operating system:",
       " Name:     " ++ name.sysname,
       " Release:  " ++ name.release,
       " Version:  " ++ name.version,
       " Machine:  " ++ name.machine]

/-- `CrashLogUnix::LogError`, at line granularity.  `strsignal` is the C
library's signal-to-text lookup, a total function (it yields some string
even for unrecognized values).  The format string ends in `"\n\n"`, hence
the trailing blank line. -/
def LogError (strsignal : Nat → String) (signum : Nat) (message : String) : List String :=
  ["Crash reason:",
   " Signal:  " ++ strsignal signum ++ " (" ++ toString signum ++ ")",
   " Message: " ++ message,
   ""]

/-- The frame lines of the glibc variant of `LogStacktrace`:
`backtrace(trace, 64)` captures at most 64 return addresses of the current
call stack (modelled as `callstack.take 64`), `backtrace_symbols` resolves
each to a printable description (`symbolize`), and one line
`" [%02i] %s"` is emitted per captured frame, innermost first. -/
def glibcFrameLines (callstack : List Nat) (symbolize : Nat → String) : List String :=
  (callstack.take 64).enum.map
    (fun p => " [" ++ fmt02i p.1 ++ "] " ++ symbolize p.2)

/-- The glibc (frame-unwinding) variant of `CrashLogUnix::LogStacktrace`:
header line, the capped frame lines, and the trailing blank line from the
final `seprintf(buffer, last, "\n")`. -/
def LogStacktraceGlibc (callstack : List Nat) (symbolize : Nat → String) : List String :=
  "Stacktrace:" :: (glibcFrameLines callstack symbolize ++ [""])

/-- Result fields of a successful `dladdr()` lookup: containing module
path, nearest symbol name, and that symbol's address. -/
structure DlInfo where
  dli_fname : String
  dli_sname : String
  dli_saddr : Nat
deriving DecidableEq

/-- One line emitted by the callback `CrashLogUnix::SunOSStackWalker` for
the frame at program counter `pc`, at stack level `counter`: on `dladdr`
success `" [%02i] %s(%s+0x%x) [0x%x]"`, on failure the numbered raw
address `" [%02i] [0x%x]"`. -/
def SunOSStackWalkerLine (dladdr : Nat → Option DlInfo) (pc : Nat) (counter : Nat) : String :=
  match dladdr pc with
  | some dli =>
      " [" ++ fmt02i counter ++ "] " ++ dli.dli_fname ++ "(" ++ dli.dli_sname ++
        "+0x" ++ fmtHex (pc - dli.dli_saddr) ++ ") [0x" ++ fmtHex pc ++ "]"
  | none => " [" ++ fmt02i counter ++ "] [0x" ++ fmtHex pc ++ "]"

/-- The lines produced by `walkcontext(&uc, SunOSStackWalker, &wp)`:
the context primitive invokes the callback once per frame of the call
chain (`chain`, innermost first); the callback always returns 0, so every
frame is walked, with `wp.counter` incremented each time. -/
def sunosFrameLines (dladdr : Nat → Option DlInfo) (chain : List Nat) (counter : Nat) : List String :=
  match chain with
  | [] => []
  | pc :: rest => SunOSStackWalkerLine dladdr pc counter :: sunosFrameLines dladdr rest (counter + 1)

/-- The SunOS (context-walking) variant of `CrashLogUnix::LogStacktrace`:
header line; if `getcontext(&uc)` fails (`getcontextOk = false`), the
single line `" getcontext() failed"` followed by the blank line of its
`"\n\n"` format, returning early; otherwise the walked frame lines and
the trailing blank line. -/
def LogStacktraceSunOS (getcontextOk : Bool) (dladdr : Nat → Option DlInfo)
    (chain : List Nat) : List String :=
  "Stacktrace:" ::
    (if getcontextOk then sunosFrameLines dladdr chain 0 ++ [""]
     else [" getcontext() failed", ""])

/-- The fallback variant of `CrashLogUnix::LogStacktrace` on platforms
with neither facility: header, `" Not supported."`, trailing blank line. -/
def LogStacktraceUnsupported : List String :=
  ["Stacktrace:", " Not supported.", ""]

/-- Modelled from the spec: the full-capture report assembly
(`CrashLog::MakeCrashLog` / `FillCrashLog` in `crashlog.cpp`, not part of
the excerpt) invokes the three operations in the fixed order
{OS version, fault reason, stack trace}, appending each section into the
shared buffer (glibc build shown). -/
def fullCaptureReport (una : Option Utsname) (errnoStr : String)
    (strsignal : Nat → String) (signum : Nat) (message : String)
    (callstack : List Nat) (symbolize : Nat → String) : List String :=
  LogOSVersion una errnoStr ++ LogError strsignal signum message ++
    LogStacktraceGlibc callstack symbolize

/- ## Theorems -/

/-- C1: the first action of `HandleCrash`, before any skip-predicate query
or report text, is to restore the default disposition of every signal in
the watch-set: the first five trace events are exactly the disarm calls
(so no query, print or collector event precedes them), their effect on any
disposition table is `disarmSignals`, and afterwards delivery of any
watched signal no longer invokes the crash handler. -/
theorem c1_disarm_before_report (env : Env) (signum : Nat) (s0 : SigState) :
    (HandleCrash env signum).take 5 =
      signals_to_handle.map (fun i => Event.setSig i Disposition.sigdfl) ∧
    applyEvents s0 ((HandleCrash env signum).take 5) = disarmSignals s0 ∧
    ∀ sig, sig ∈ signals_to_handle →
      ¬ deliveryInvokesHandler (applyEvents s0 ((HandleCrash env signum).take 5)) sig := by
  refine ⟨rfl, rfl, ?_⟩
  intro sig hsig
  simp only [signals_to_handle, SIGSEGV, SIGABRT, SIGFPE, SIGBUS, SIGILL,
    List.mem_cons, List.not_mem_nil, or_false] at hsig
  rcases hsig with h | h | h | h | h <;> subst h <;>
    simp [deliveryInvokesHandler, applyEvents, applyEvent, HandleCrash, signals_to_handle,
      SIGSEGV, SIGABRT, SIGFPE, SIGBUS, SIGILL, setSignal, List.foldl]

/-- Witness for C1 at a concrete episode: after the disarm step of a crash
with both predicates false, delivery of `SIGSEGV` to a table that
initially mapped everything to the handler no longer invokes it. -/
theorem c1_disarm_before_report_witness :
    ¬ deliveryInvokesHandler
        (applyEvents (fun _ => Disposition.crashHandler)
          ((HandleCrash ⟨false, false⟩ 11).take 5)) SIGSEGV :=
  (c1_disarm_before_report ⟨false, false⟩ 11 (fun _ => Disposition.crashHandler)).2.2
    SIGSEGV (by decide)

/-- C2: whenever either skip-predicate answers true (queried in the fixed
order emergency first, missing-content second), the trace of `HandleCrash`
contains no collector operation at all, prints exactly the fixed
explanatory lines of the branch taken, and ends in `abort()`. -/
theorem c2_skip_short_circuit (env : Env) (signum : Nat)
    (h : env.gamelogTestEmergency = true ∨ env.saveloadCrashWithMissingNewGRFs = true) :
    (HandleCrash env signum).filter (fun e => isCollectorEvent e) = [] ∧
    printedLines (HandleCrash env signum) =
      (if env.gamelogTestEmergency then
        ["A serious fault condition occurred in the game. The game will shut down.",
         "As you loaded an emergency savegame no crash information will be generated."]
       else
        ["A serious fault condition occurred in the game. The game will shut down.",
         "As you loaded an savegame for which you do not have the required NewGRFs",
         "no crash information will be generated."]) ∧
    (HandleCrash env signum).getLast? = some Event.callAbort := by
  obtain ⟨e, m⟩ := env
  cases e <;> cases m
  · simp at h
  · exact ⟨rfl, rfl, rfl⟩
  · exact ⟨rfl, rfl, rfl⟩
  · exact ⟨rfl, rfl, rfl⟩

/-- Witness for C2 at the emergency-recovery episode. -/
theorem c2_skip_short_circuit_witness :
    (HandleCrash ⟨true, false⟩ 11).filter (fun e => isCollectorEvent e) = [] ∧
    printedLines (HandleCrash ⟨true, false⟩ 11) =
      (if (Env.mk true false).gamelogTestEmergency then
        ["A serious fault condition occurred in the game. The game will shut down.",
         "As you loaded an emergency savegame no crash information will be generated."]
       else
        ["A serious fault condition occurred in the game. The game will shut down.",
         "As you loaded an savegame for which you do not have the required NewGRFs",
         "no crash information will be generated."]) ∧
    (HandleCrash ⟨true, false⟩ 11).getLast? = some Event.callAbort :=
  c2_skip_short_circuit ⟨true, false⟩ 11 (Or.inl rfl)

/-- C3: on every execution path (emergency skip, missing-content skip, or
full capture) the last event of `HandleCrash` is the `abort()` call, so
the handler never returns to the faulting context. -/
theorem c3_always_terminates (env : Env) (signum : Nat) :
    (HandleCrash env signum).getLast? = some Event.callAbort := by
  obtain ⟨e, m⟩ := env
  cases e <;> cases m <;> rfl

/-- C9: `CrashLog::InitialiseCrashLog` is idempotent — installing twice
yields exactly the registration state of installing once — and that state
maps every watched signal to the crash handler. -/
theorem c9_install_idempotent (s : SigState) :
    InitialiseCrashLog (InitialiseCrashLog s) = InitialiseCrashLog s ∧
    ∀ sig, sig ∈ signals_to_handle →
      InitialiseCrashLog s sig = Disposition.crashHandler := by
  constructor
  · funext n
    simp only [InitialiseCrashLog, signals_to_handle, SIGSEGV, SIGABRT, SIGFPE, SIGBUS, SIGILL,
      List.foldl_cons, List.foldl_nil, setSignal]
    split_ifs <;> rfl
  · intro sig hsig
    simp only [signals_to_handle, SIGSEGV, SIGABRT, SIGFPE, SIGBUS, SIGILL,
      List.mem_cons, List.not_mem_nil, or_false] at hsig
    rcases hsig with h | h | h | h | h <;> subst h <;> rfl

/-- Witness for C9: installing once over an all-default table maps
`SIGFPE` to the crash handler. -/
theorem c9_install_idempotent_witness :
    InitialiseCrashLog (fun _ => Disposition.sigdfl) SIGFPE = Disposition.crashHandler :=
  (c9_install_idempotent (fun _ => Disposition.sigdfl)).2 SIGFPE (by decide)

/-- C10: the disarm step sets exactly the five watched signals to the
default disposition and leaves every other signal's disposition
unchanged. -/
theorem c10_disarm_frame_effect (s : SigState) (n : Nat) :
    (n ∈ signals_to_handle → disarmSignals s n = Disposition.sigdfl) ∧
    (n ∉ signals_to_handle → disarmSignals s n = s n) := by
  constructor
  · intro h
    simp only [signals_to_handle, SIGSEGV, SIGABRT, SIGFPE, SIGBUS, SIGILL,
      List.mem_cons, List.not_mem_nil, or_false] at h
    rcases h with h | h | h | h | h <;> subst h <;> rfl
  · intro h
    simp only [signals_to_handle, SIGSEGV, SIGABRT, SIGFPE, SIGBUS, SIGILL,
      List.mem_cons, List.not_mem_nil, or_false, not_or] at h
    obtain ⟨h1, h2, h3, h4, h5⟩ := h
    simp [disarmSignals, signals_to_handle, SIGSEGV, SIGABRT, SIGFPE, SIGBUS, SIGILL,
      List.foldl, setSignal, h1, h2, h3, h4, h5]

/-- Witness for C10: disarming an all-handler table resets `SIGSEGV` (a
watched signal) to default and leaves signal 64 (unwatched) untouched. -/
theorem c10_disarm_frame_effect_witness :
    disarmSignals (fun _ => Disposition.crashHandler) SIGSEGV = Disposition.sigdfl ∧
    disarmSignals (fun _ => Disposition.crashHandler) 64 = Disposition.crashHandler :=
  ⟨(c10_disarm_frame_effect (fun _ => Disposition.crashHandler) SIGSEGV).1 (by decide),
   (c10_disarm_frame_effect (fun _ => Disposition.crashHandler) 64).2 (by decide)⟩

/-- C4 counterexample: in a concrete full-capture report the line right
after the OS-version section (index 5, after the header and four fields)
is the `"Crash reason:"` header itself, not a blank line — no blank line
separates the OS-version section from the fault-reason section. -/
theorem c4_counterexample :
    (fullCaptureReport (some ⟨"Linux", "6.1.0", "#1 SMP", "x86_64"⟩) "err"
        (fun _ => "Segmentation fault") 11 "" [] (fun _ => ""))[5]? =
      some "Crash reason:" ∧
    ¬ ((fullCaptureReport (some ⟨"Linux", "6.1.0", "#1 SMP", "x86_64"⟩) "err"
        (fun _ => "Segmentation fault") 11 "" [] (fun _ => ""))[5]? = some "") := by
  exact ⟨rfl, by decide⟩

/-- C4 amended: every full-capture report has the three sections in order,
each beginning with its distinct header line, with every field indented by
one space; a blank line follows the fault-reason section and the
stack-trace section, but no blank line follows the OS-version section —
the fault-reason header directly follows the last OS field. -/
theorem c4_report_layout (name : Utsname) (errnoStr : String)
    (strsignal : Nat → String) (signum : Nat) (message : String)
    (callstack : List Nat) (symbolize : Nat → String) :
    fullCaptureReport (some name) errnoStr strsignal signum message callstack symbolize =
      ["Operating system:",
       " " ++ ("Name:     " ++ name.sysname),
       " " ++ ("Release:  " ++ name.release),
       " " ++ ("Version:  " ++ name.version),
       " " ++ ("Machine:  " ++ name.machine),
       "Crash reason:",
       " " ++ ("Signal:  " ++ strsignal signum ++ " (" ++ toString signum ++ ")"),
       " " ++ ("Message: " ++ message),
       "",
       "Stacktrace:"] ++
      ((callstack.take 64).enum.map
        (fun p => " " ++ ("[" ++ fmt02i p.1 ++ "] " ++ symbolize p.2)) ++ [""]) := rfl

/-- Length of the SunOS walk: one line per frame of the walked chain,
whatever the starting counter. -/
theorem sunosFrameLines_length (dladdr : Nat → Option DlInfo) (chain : List Nat) :
    ∀ counter, (sunosFrameLines dladdr chain counter).length = chain.length := by
  induction chain with
  | nil => intro counter; rfl
  | cons pc rest ih => intro counter; simp [sunosFrameLines, ih]

/-- C5 counterexample: the context-walking (SunOS) variant has no fixed
cap — on a 65-frame call chain it emits 65 numbered frame lines,
exceeding the 64-frame maximum of the frame-unwinding variant. -/
theorem c5_counterexample :
    (sunosFrameLines (fun _ => none) (List.range 65) 0).length = 65 ∧
    ¬ ((sunosFrameLines (fun _ => none) (List.range 65) 0).length ≤ 64) := by
  have h : (sunosFrameLines (fun _ => none) (List.range 65) 0).length = 65 := by
    rw [sunosFrameLines_length]; simp
  exact ⟨h, by rw [h]; decide⟩

/-- C5 amended: the frame-unwinding (glibc) variant caps the emitted
frame lines at 64 for every call stack, and the unsupported variant emits
none, but the context-walking (SunOS) variant emits exactly one numbered
line per walked frame, with no fixed maximum. -/
theorem c5_frame_cap (callstack : List Nat) (symbolize : Nat → String)
    (dladdr : Nat → Option DlInfo) (chain : List Nat) :
    (glibcFrameLines callstack symbolize).length ≤ 64 ∧
    (sunosFrameLines dladdr chain 0).length = chain.length ∧
    LogStacktraceUnsupported = ["Stacktrace:", " Not supported.", ""] := by
  refine ⟨?_, sunosFrameLines_length dladdr chain 0, rfl⟩
  simp only [glibcFrameLines, List.length_map, List.enum_length, List.length_take]
  omega

/-- C6: `LogOSVersion` emits exactly one line naming the failure reason
when the `uname()` query fails, and exactly the five-line block — header,
then the labeled name, release, version and machine fields in that
order — when it succeeds. -/
theorem c6_os_version_lines (errnoStr : String) (name : Utsname) :
    LogOSVersion none errnoStr = ["Could not get OS version: " ++ errnoStr] ∧
    (LogOSVersion none errnoStr).length = 1 ∧
    LogOSVersion (some name) errnoStr =
      ["Operating system:",
       " Name:     " ++ name.sysname,
       " Release:  " ++ name.release,
       " Version:  " ++ name.version,
       " Machine:  " ++ name.machine] ∧
    (LogOSVersion (some name) errnoStr).length = 5 :=
  ⟨rfl, rfl, rfl, rfl⟩

/-- C7: `LogError` is total — for every signal-to-text lookup (itself a
total function, producing some string even for unrecognized values),
every signal number and every caller-supplied message, it emits the
fault-reason block containing the signal's description, its numeric
identifier and the message. -/
theorem c7_log_error_total (strsignal : Nat → String) (signum : Nat) (message : String) :
    LogError strsignal signum message =
      ["Crash reason:",
       " Signal:  " ++ strsignal signum ++ " (" ++ toString signum ++ ")",
       " Message: " ++ message,
       ""] := rfl

/-- C8: in the context-walking variant, a frame whose `dladdr` symbol
lookup fails yields just the numbered raw-address line, and a failed
`getcontext()` yields the single failure line with no frame lines at all,
whatever the pending call chain was. -/
theorem c8_sunos_fallbacks (dladdr : Nat → Option DlInfo) (pc counter : Nat)
    (chain : List Nat) (h : dladdr pc = none) :
    SunOSStackWalkerLine dladdr pc counter =
      " [" ++ fmt02i counter ++ "] [0x" ++ fmtHex pc ++ "]" ∧
    LogStacktraceSunOS false dladdr chain =
      ["Stacktrace:", " getcontext() failed", ""] := by
  constructor
  · simp [SunOSStackWalkerLine, h]
  · rfl

/-- Witness for C8: a lookup that resolves nothing produces the raw
numbered line for frame 3 at address 4096, and the failed-context trace
is the fixed three lines even with a pending chain. -/
theorem c8_sunos_fallbacks_witness :
    SunOSStackWalkerLine (fun _ => none) 4096 3 =
      " [" ++ fmt02i 3 ++ "] [0x" ++ fmtHex 4096 ++ "]" ∧
    LogStacktraceSunOS false (fun _ => none) [1, 2, 3] =
      ["Stacktrace:", " getcontext() failed", ""] :=
  c8_sunos_fallbacks (fun _ => none) 4096 3 [1, 2, 3] rfl
